import Mathlib

/-!
Verification development for the MediVaultAI demo application.

The definitions below are shallow embeddings of the TypeScript sources:
  - `getMockMedicalResponse` from src/data/medicalResponses.ts,
  - the bounded metric / audit-log list updates from
    src/hooks/usePerformanceMetrics.ts and useAuditLog,
  - `addMessage` from src/contexts/ChatContext.tsx,
  - the serverless proxy handler (`serve`) from
    supabase/functions/medical-chat/index.ts (the latest revision in that
    file, the one with per-role mock tables and the guarded CyborgDB call),
  - the query dispatch `sendMessage` from hooks/useMedicalChat.ts.

Markdown response payloads in the source embed per-call timestamps and
random audit identifiers, so they are not fixed strings; each payload is
represented here by a distinct abbreviated string (its distinctive heading),
which preserves payload identity, and every piece of branching logic that
selects a payload is translated faithfully.
-/

/-- Does the first list lead (start) the second one? -/
def listLeads : List Char → List Char → Bool
  | [], _ => true
  | _ :: _, [] => false
  | a :: as, b :: bs => a == b && listLeads as bs

/-- Does the second list occur contiguously inside the first argument list? -/
def listContains (needle : List Char) : List Char → Bool
  | [] => needle.isEmpty
  | c :: rest => listLeads needle (c :: rest) || listContains needle rest

/-- JavaScript `haystack.includes(needle)` on strings: substring test. -/
def includesStr (haystack needle : String) : Bool :=
  listContains needle.toList haystack.toList

/-- JavaScript `s.toLowerCase()` (ASCII letters, which is all the source
keyword tables use), written to evaluate by kernel reduction. -/
def jsToLower (s : String) : String := String.mk (s.data.map Char.toLower)

example : jsToLower "AbC Def?" = "abc def?" := by decide

/-- JavaScript `s.slice(0, n)`: the first `n` characters of the string,
written over the character list so it evaluates by kernel reduction. -/
def jsTake (s : String) (n : Nat) : String := String.mk (s.data.take n)

/-- JavaScript `s.length`. -/
def jsLength (s : String) : Nat := s.data.length

/-- JavaScript `s.trim()`: strip leading and trailing whitespace. -/
def jsTrim (s : String) : String :=
  String.mk
    (((s.data.dropWhile Char.isWhitespace).reverse.dropWhile
        Char.isWhitespace).reverse)

example : jsTrim "  a b  " = "a b" := by decide

example : jsTrim " \n " = "" := by decide

/-- One entry of the mock response table (src/data/medicalResponses.ts). -/
structure ResponseMatch where
  keywords : List String
  response : String
deriving DecidableEq, Repr

/-- The ordered mock response table from src/data/medicalResponses.ts.
Keyword lists are verbatim; each response is abbreviated to its heading. -/
def medicalResponses : List ResponseMatch :=
  [ { keywords := ["diabetes", "type 2", "treatment", "elderly"],
      response := "## Treatment Options for Type 2 Diabetes in Elderly Patients" },
    { keywords := ["metformin", "lisinopril", "interaction", "drug"],
      response := "## Drug Interaction Analysis: Metformin + Lisinopril" },
    { keywords := ["hypertension", "blood pressure", "patient", "case"],
      response := "## Hypertension Management Summary" },
    { keywords := ["cardiac", "heart", "cabg", "surgery", "post"],
      response := "## Post-Cardiac Surgery Care Protocols" },
    { keywords := ["contraindication", "avoid", "should not", "risk"],
      response := "## Contraindications Analysis" } ]

/-- The fixed default mock response (abbreviated to its heading). -/
def defaultResponse : String := "## Medical Query Response"

/-- Number of keywords of an entry that occur in the lowercased query:
`match.keywords.filter(k => lowerQuery.includes(k)).length`. -/
def mockHits (query : String) (m : ResponseMatch) : Nat :=
  (m.keywords.filter (fun kw => includesStr (jsToLower query) kw)).length

/-- Function `getMockMedicalResponse` from src/data/medicalResponses.ts: a scan
for an entry with at least two keyword hits, then for one with at least one
hit, then the default. Each `for`-loop with an early `return` is the first
match of the scan, i.e. `List.find?`. -/
def getMockMedicalResponse (query : String) : String :=
  match medicalResponses.find? (fun m => decide (2 ≤ mockHits query m)) with
  | some m => m.response
  | none =>
    match medicalResponses.find?
        (fun m => m.keywords.any (fun kw => includesStr (jsToLower query) kw)) with
    | some m => m.response
    | none => defaultResponse

example : getMockMedicalResponse "best treatment for type 2 diabetes" =
    "## Treatment Options for Type 2 Diabetes in Elderly Patients" := by decide

example : getMockMedicalResponse "hello there" = defaultResponse := by decide

example : getMockMedicalResponse "a cardiac question" =
    "## Post-Cardiac Surgery Care Protocols" := by decide

/-! ## Bounded metric and audit lists (src/hooks/usePerformanceMetrics.ts) -/

/-- One `recordMetric` state update from usePerformanceMetrics:
`setMetrics(prev => [...prev.slice(-19), metric])`. The latency, overhead
and accuracy fields of the metric are randomly generated, so the update is
stated generically in the element type. -/
def recordMetric {α : Type} (prev : List α) (metric : α) : List α :=
  prev.drop (prev.length - 19) ++ [metric]

/-- One `addAuditEntry` state update from useAuditLog:
`setAuditLogs(prev => [entry, ...prev].slice(0, 100))`. -/
def addAuditEntry {α : Type} (prev : List α) (entry : α) : List α :=
  (entry :: prev).take 100

/-- Update `startQuery`: `setActiveQueries(prev => prev + 1)`. -/
def startQuery (prev : Int) : Int := prev + 1

/-- Update `endQuery`: `setActiveQueries(prev => Math.max(0, prev - 1))`. -/
def endQuery (prev : Int) : Int := max 0 (prev - 1)

/-- A start or end event on the active-query counter. -/
inductive QueryOp where
  | start
  | stop
deriving DecidableEq, Repr

/-- Apply one counter event. -/
def applyQueryOp (n : Int) : QueryOp → Int
  | .start => startQuery n
  | .stop => endQuery n

/-! ## Chat state (src/contexts/ChatContext.tsx) -/

/-- Message author role. -/
inductive MsgRole where
  | user
  | assistant
deriving DecidableEq, Repr

/-- A chat message; the random id, timestamp, decorative encrypted hash and
the constant `isEncrypted: true` flag carry no logic and are omitted. -/
structure ChatMessage where
  role : MsgRole
  content : String
deriving DecidableEq, Repr

/-- A conversation: title plus ordered messages (timestamps omitted). -/
structure Conversation where
  title : String
  messages : List ChatMessage
deriving DecidableEq, Repr

/-- Function `addMessage` from ChatContext.tsx restricted to the active conversation
it updates: appends the message and sets the title from the first user
message — `conv.messages.length === 0 && role === 'user' ?
content.slice(0, 40) + (content.length > 40 ? '...' : '') : conv.title`. -/
def addMessage (conv : Conversation) (content : String) (role : MsgRole) :
    Conversation :=
  { messages := conv.messages ++ [{ role := role, content := content }],
    title :=
      if conv.messages.length = 0 ∧ role = MsgRole.user then
        jsTake content 40 ++ (if 40 < jsLength content then "..." else "")
      else conv.title }

example :
    (addMessage { title := "New Conversation", messages := [] } "hi" .user).title
      = "hi" := by decide

/-! ## Serverless proxy (supabase/functions/medical-chat/index.ts) -/

/-- A mock search record; its markdown content, metadata and score carry no
branching logic, so a record is represented by its unique id. -/
structure MockRecord where
  id : String
deriving DecidableEq, Repr

/-- Doctor mock table: categories in object-key order
(diagnosis, treatment, history, interactions). -/
def doctorRecords : List (List MockRecord) :=
  [ [⟨"dx-001"⟩, ⟨"dx-002"⟩],
    [⟨"tx-001"⟩, ⟨"tx-002"⟩],
    [⟨"hx-001"⟩, ⟨"hx-002"⟩],
    [⟨"int-001"⟩, ⟨"int-002"⟩] ]

/-- Clinician mock table (labs, procedures, vitals, allergies). -/
def clinicianRecords : List (List MockRecord) :=
  [ [⟨"lab-001"⟩, ⟨"lab-002"⟩],
    [⟨"proc-001"⟩, ⟨"proc-002"⟩],
    [⟨"vit-001"⟩, ⟨"vit-002"⟩],
    [⟨"alg-001"⟩, ⟨"alg-002"⟩] ]

/-- Admin mock table (analytics, compliance, staff, billing). -/
def adminRecords : List (List MockRecord) :=
  [ [⟨"ana-001"⟩, ⟨"ana-002"⟩],
    [⟨"comp-001"⟩, ⟨"comp-002"⟩],
    [⟨"stf-001"⟩, ⟨"stf-002"⟩],
    [⟨"bil-001"⟩, ⟨"bil-002"⟩] ]

/-- Researcher mock table (trials, population, outcomes, publications). -/
def researcherRecords : List (List MockRecord) :=
  [ [⟨"tri-001"⟩, ⟨"tri-002"⟩],
    [⟨"pop-001"⟩, ⟨"pop-002"⟩],
    [⟨"out-001"⟩, ⟨"out-002"⟩],
    [⟨"pub-001"⟩, ⟨"pub-002"⟩] ]

/-- Category access helper: category `i` of a role table. -/
def cat (table : List (List MockRecord)) (i : Nat) : List MockRecord :=
  (table.drop i).headD []

/-- Function `getMockResults(query, role)` from the proxy: pick the role table
(defaulting to the doctor table for unknown roles), then run the role-gated
keyword chain; with no match, return the first two records of the flattened
table (`Object.values(records).flat().slice(0, 2)`). -/
def getMockResults (query role : String) : List MockRecord :=
  let lq := jsToLower query
  let has := fun (kw : String) => includesStr lq kw
  let records :=
    if role = "doctor" then doctorRecords
    else if role = "clinician" then clinicianRecords
    else if role = "admin" then adminRecords
    else if role = "researcher" then researcherRecords
    else doctorRecords
  if role = "doctor" ∧
      (has "diagnosis" ∨ has "differential" ∨ has "chest pain" ∨
        has "symptoms") then cat records 0
  else if role = "doctor" ∧
      (has "treatment" ∨ has "first-line" ∨ has "insulin" ∨
        has "medication" ∨ has "regimen" ∨ has "post-mi") then cat records 1
  else if role = "doctor" ∧
      (has "history" ∨ has "cardiac" ∨ has "pre-op" ∨ has "uti" ∨
        has "review" ∨ has "patient") then cat records 2
  else if role = "doctor" ∧
      (has "interaction" ∨ has "warfarin" ∨ has "analgesic" ∨
        has "ssri" ∨ has "contraindication") then cat records 3
  else if role = "clinician" ∧
      (has "lab" ∨ has "critical" ∨ has "hba1c" ∨ has "trend" ∨
        has "abnormal" ∨ has "lipid") then cat records 0
  else if role = "clinician" ∧
      (has "procedure" ∨ has "colonoscopy" ∨ has "iv" ∨ has "protocol" ∨
        has "transfusion" ∨ has "monitoring") then cat records 1
  else if role = "clinician" ∧
      (has "vital" ∨ has "blood pressure" ∨ has "oxygen" ∨
        has "saturation" ∨ has "heart rate" ∨ has "bp") then cat records 2
  else if role = "clinician" ∧
      (has "allerg" ∨ has "latex" ∨ has "fall" ∨ has "risk" ∨
        has "cross-react") then cat records 3
  else if role = "admin" ∧
      (has "wait" ∨ has "utilization" ∨ has "analytics" ∨
        has "readmission" ∨ has "capacity") then cat records 0
  else if role = "admin" ∧
      (has "hipaa" ∨ has "compliance" ∨ has "audit" ∨
        has "certification" ∨ has "credential" ∨ has "access log") then
    cat records 1
  else if role = "admin" ∧
      (has "staff" ∨ has "overtime" ∨ has "training" ∨ has "completion" ∨
        has "hr") then cat records 2
  else if role = "admin" ∧
      (has "billing" ∨ has "unbilled" ∨ has "rejection" ∨ has "revenue" ∨
        has "insurance" ∨ has "claim") then cat records 3
  else if role = "researcher" ∧
      (has "trial" ∨ has "eligible" ∨ has "enrollment" ∨ has "adverse" ∨
        has "oncology") then cat records 0
  else if role = "researcher" ∧
      (has "population" ∨ has "prevalence" ∨ has "correlation" ∨
        has "demographic" ∨ has "bmi") then cat records 1
  else if role = "researcher" ∧
      (has "outcome" ∨ has "mortality" ∨ has "efficacy" ∨
        has "treatment" ∨ has "comparison") then cat records 2
  else if role = "researcher" ∧
      (has "dataset" ∨ has "irb" ∨ has "publication" ∨ has "grant" ∨
        has "de-identified" ∨ has "retrospective") then cat records 3
  else (records.flatten).take 2

/-! Fallback response templates of `generateFallbackResponse`. Each markdown
block in the source interpolates a fresh timestamp and audit id, so the
block is represented by a distinct abbreviated string naming its heading. -/

/-- Doctor template: differential diagnosis for chest pain. -/
def tplDoctorChestPain : String :=
  "fallback:doctor:Differential Diagnosis - Chest Pain in 55-Year-Old"

/-- Doctor template: hypertension management algorithm. -/
def tplDoctorHypertension : String :=
  "fallback:doctor:Hypertension Management Algorithm"

/-- Doctor template: insulin titration protocol for Type 2 diabetes. -/
def tplDoctorDiabetes : String :=
  "fallback:doctor:Insulin Titration Protocol for Type 2 Diabetes"

/-- Doctor template: post-MI medication regimen. -/
def tplDoctorPostMI : String :=
  "fallback:doctor:Post-MI Medication Regimen per ACC AHA Guidelines"

/-- Doctor template: warfarin and antibiotic interactions. -/
def tplDoctorWarfarin : String :=
  "fallback:doctor:Drug Interactions - Warfarin + Antibiotics"

/-- Clinician template: critical lab values. -/
def tplClinicianLabs : String :=
  "fallback:clinician:Critical Lab Values"

/-- Clinician template: post-colonoscopy monitoring. -/
def tplClinicianColonoscopy : String :=
  "fallback:clinician:Post-Colonoscopy Monitoring"

/-- Clinician template: elevated blood pressure patients. -/
def tplClinicianBP : String :=
  "fallback:clinician:Blood Pressure Alerts"

/-- Clinician template: fall-risk patients. -/
def tplClinicianFalls : String :=
  "fallback:clinician:High Fall Risk Patients"

/-- Admin template: wait times. -/
def tplAdminWait : String := "fallback:admin:Wait Times"

/-- Admin template: department utilization. -/
def tplAdminUtilization : String := "fallback:admin:Department Utilization"

/-- Admin template: HIPAA compliance summary. -/
def tplAdminHIPAA : String := "fallback:admin:HIPAA Compliance Summary"

/-- Admin template: training completion. -/
def tplAdminTraining : String := "fallback:admin:Training Completion"

/-- Admin template: unbilled procedures. -/
def tplAdminBilling : String := "fallback:admin:Unbilled Procedures"

/-- Researcher template: trial eligibility and enrollment. -/
def tplResearcherTrials : String := "fallback:researcher:Trial Enrollment"

/-- Researcher template: population prevalence. -/
def tplResearcherPopulation : String :=
  "fallback:researcher:Population Prevalence"

/-- Researcher template: outcomes and mortality. -/
def tplResearcherOutcomes : String := "fallback:researcher:Outcomes Analysis"

/-- Researcher template: IRB and dataset access. -/
def tplResearcherIRB : String := "fallback:researcher:IRB and Dataset Access"

/-- Role-tailored default template at the end of `generateFallbackResponse`
(its body switches small sections on the role string). -/
def tplDefault (role : String) : String := "fallback:default:" ++ role

/-- Function `generateFallbackResponse(query, context, role)` from the proxy: a
role-gated keyword chain over the lowercased query choosing one canned
markdown block; the `context` argument is accepted but never used for the
selection. -/
def generateFallbackResponse (query : String) (context : List MockRecord)
    (role : String) : String :=
  let lq := jsToLower query
  let has := fun (kw : String) => includesStr lq kw
  let _ := context
  if role = "doctor" ∧
      (has "differential" ∨ has "diagnosis" ∨ has "chest pain") then
    tplDoctorChestPain
  else if role = "doctor" ∧
      (has "treatment" ∨ has "hypertension" ∨ has "first-line") then
    tplDoctorHypertension
  else if role = "doctor" ∧
      (has "insulin" ∨ has "titration" ∨ has "diabetes") then
    tplDoctorDiabetes
  else if role = "doctor" ∧
      (has "post-mi" ∨ has "medication regimen" ∨ has "myocardial") then
    tplDoctorPostMI
  else if role = "doctor" ∧
      (has "interaction" ∨ has "warfarin" ∨ has "antibiotic") then
    tplDoctorWarfarin
  else if role = "clinician" ∧ (has "critical" ∨ has "lab value") then
    tplClinicianLabs
  else if role = "clinician" ∧
      (has "colonoscopy" ∨ has "post-procedure" ∨
        has "monitoring checklist") then tplClinicianColonoscopy
  else if role = "clinician" ∧
      (has "blood pressure" ∨ has "180" ∨ has "bp" ∨
        has "hypertensive") then tplClinicianBP
  else if role = "clinician" ∧
      (has "fall" ∨ has "risk" ∨ has "high-risk") then tplClinicianFalls
  else if role = "admin" ∧ (has "wait time" ∨ has "average") then
    tplAdminWait
  else if role = "admin" ∧
      (has "utilization" ∨ has "department" ∨ has "capacity") then
    tplAdminUtilization
  else if role = "admin" ∧
      (has "hipaa" ∨ has "compliance" ∨ has "audit") then tplAdminHIPAA
  else if role = "admin" ∧
      (has "training" ∨ has "completion" ∨ has "staff") then
    tplAdminTraining
  else if role = "admin" ∧
      (has "unbilled" ∨ has "billing" ∨ has "revenue") then tplAdminBilling
  else if role = "researcher" ∧
      (has "eligible" ∨ has "trial" ∨ has "enrollment") then
    tplResearcherTrials
  else if role = "researcher" ∧
      (has "prevalence" ∨ has "population" ∨ has "age group") then
    tplResearcherPopulation
  else if role = "researcher" ∧
      (has "mortality" ∨ has "outcome" ∨ has "30-day") then
    tplResearcherOutcomes
  else if role = "researcher" ∧
      (has "irb" ∨ has "dataset" ∨ has "de-identified" ∨
        has "retrospective") then tplResearcherIRB
  else tplDefault role

example :
    generateFallbackResponse "What are common symptoms of Type 2 Diabetes?"
      [] "doctor" = tplDoctorDiabetes := by decide

example :
    generateFallbackResponse "What are common symptoms of Type 2 Diabetes?"
      [] "researcher" = tplDefault "researcher" := by decide

/-- Outcome of the proxy's outbound fetch to the CyborgDB search endpoint. -/
inductive SearchFetch where
  /-- 2xx reply whose body carried these results. -/
  | ok (results : List MockRecord)
  /-- Non-2xx HTTP reply. -/
  | httpError (status : Nat)
  /-- The fetch itself threw (service unreachable). -/
  | networkError
deriving DecidableEq, Repr

/-- Outcome of the proxy's outbound fetch to the LLM gateway. -/
inductive AiFetch where
  /-- 2xx reply; `content` is `choices[0].message.content`, with the empty
  string standing for an absent or empty field (both falsy in JS). -/
  | ok (content : String)
  /-- Non-2xx HTTP reply. -/
  | httpError (status : Nat)
  /-- The fetch itself threw (gateway unreachable). -/
  | networkError
deriving DecidableEq, Repr

/-- Environment of one proxy invocation: configured secrets and the
behaviour of the external services on this request. -/
structure ProxyEnv where
  cyborgKey : Option String
  lovableKey : Option String
  searchFetch : SearchFetch
  aiFetch : AiFetch
  /-- Did the CyborgDB upsert call (action `index`) return 2xx? -/
  upsertOk : Bool
deriving DecidableEq, Repr

/-- Parsed request body `{action, query, context, role, documents}`; absent
JS fields are modelled by their falsy value (empty string / empty list). -/
structure ProxyRequest where
  action : String := ""
  query : String := ""
  context : List MockRecord := []
  role : String := ""
  documentCount : Nat := 0
deriving DecidableEq, Repr

/-- JSON body of a proxy response. -/
inductive ProxyBody where
  /-- Body `\x7bresults, source, message?\x7d` for action `search`. -/
  | search (results : List MockRecord) (source : String)
      (message : Option String)
  /-- Body `\x7bsuccess: true, indexed\x7d` for action `index`. -/
  | indexOk (indexed : Nat)
  /-- Body `\x7bresponse\x7d` for action `generate`. -/
  | generated (response : String)
  /-- Body `\x7berror\x7d` for thrown or mapped errors. -/
  | jsonError (error : String)
deriving DecidableEq, Repr

/-- An HTTP response of the proxy. -/
structure ProxyResponse where
  status : Nat
  body : ProxyBody
deriving DecidableEq, Repr

/-- The `message` sent along with demo search results. -/
def demoMessage : String :=
  "Using demo data - configure CyborgDB for production"

/-- The proxy request handler (the `serve` callback of
supabase/functions/medical-chat/index.ts, latest revision). `throw`s inside
the handler surface through the outer catch as HTTP 500 with the message;
the inner catch of the `generate` branch turns any non-429/402 gateway
failure into a 200 fallback response. -/
def serve (env : ProxyEnv) (req : ProxyRequest) : ProxyResponse :=
  let action := if req.action = "" then "search" else req.action
  let userRole := if req.role = "" then "doctor" else req.role
  if action = "search" then
    if req.query = "" then { status := 500, body := .jsonError "Query is required" }
    else
      match env.cyborgKey, env.searchFetch with
      | some _, .ok results =>
        { status := 200, body := .search results "cyborgdb" none }
      | some _, _ =>
        { status := 200,
          body := .search (getMockResults req.query userRole) "demo"
            (some demoMessage) }
      | none, _ =>
        { status := 200,
          body := .search (getMockResults req.query userRole) "demo"
            (some demoMessage) }
  else if action = "index" then
    if env.upsertOk then
      { status := 200, body := .indexOk req.documentCount }
    else
      { status := 500, body := .jsonError "Failed to index documents" }
  else if action = "generate" then
    match env.lovableKey with
    | none =>
      { status := 200,
        body := .generated
          (generateFallbackResponse req.query req.context userRole) }
    | some _ =>
      match env.aiFetch with
      | .ok content =>
        if content = "" then
          { status := 200,
            body := .generated
              (generateFallbackResponse req.query req.context userRole) }
        else { status := 200, body := .generated content }
      | .httpError 429 =>
        { status := 429,
          body := .jsonError
            "Rate limit exceeded. Please try again in a moment." }
      | .httpError 402 =>
        { status := 402,
          body := .jsonError
            "AI credits exhausted. Please add credits to continue." }
      | .httpError _ =>
        { status := 200,
          body := .generated
            (generateFallbackResponse req.query req.context userRole) }
      | .networkError =>
        { status := 200,
          body := .generated
            (generateFallbackResponse req.query req.context userRole) }
  else { status := 400, body := .jsonError "Invalid action" }

example :
    serve { cyborgKey := none, lovableKey := none, searchFetch := .networkError,
            aiFetch := .networkError, upsertOk := false }
      { action := "bogus" } =
      { status := 400, body := .jsonError "Invalid action" } := by decide

/-! ## Query dispatch (src/hooks/useMedicalChat.ts, `sendMessage`) -/

/-- Encryption pipeline status of the chat context. -/
inductive EncStatus where
  | idle
  | encrypting
  | searching
  | decrypting
  | complete
deriving DecidableEq, Repr

/-- The logged-in demo user (id and role are what `sendMessage` reads). -/
structure UserInfo where
  id : String
  role : String
deriving DecidableEq, Repr

/-- Audit action kinds of AuditLogEntry. -/
inductive AuditAction where
  | query
  | access
  | retrieval
  | login
  | logout
deriving DecidableEq, Repr

/-- An audit log entry as built by `addAuditEntry` (random id and timestamp
omitted; encryption method and status are the constants the hook passes). -/
structure AuditEntry where
  userId : String
  userRole : String
  action : AuditAction
  dataAccessed : String
  encryptionMethod : String := "AES-256-GCM"
  status : String := "success"
deriving DecidableEq, Repr

/-- A performance metric; only the caller-supplied records-searched count is
kept, the latency/overhead/accuracy fields being randomly generated. -/
structure PerfMetric where
  recordsSearched : Nat
deriving DecidableEq, Repr

/-- The client state `sendMessage` reads and writes. -/
structure DispatchState where
  activeConversation : Option Conversation
  isLoading : Bool
  encryptionStatus : EncStatus
  error : Option String
  auditLogs : List AuditEntry
  metrics : List PerfMetric
  activeQueries : Int
deriving DecidableEq, Repr

/-- Environment of one dispatch: the proxy environment plus whether each of
the two `supabase.functions.invoke` calls reaches the edge function at all
(client-side network failure is an invoke error the proxy never sees). -/
structure DispatchEnv where
  proxy : ProxyEnv
  searchReachable : Bool
  generateReachable : Bool
deriving DecidableEq, Repr

/-- Result of one `sendMessage` run: the final state, the sequence of
encryption statuses the run set (in order, including the deferred reset to
`idle` scheduled by `setTimeout` on the success path), and whether the
`generate` call was issued. -/
structure DispatchResult where
  state : DispatchState
  statusTrace : List EncStatus
  generateCalled : Bool
deriving DecidableEq, Repr

/-- Call wrapper `supabase.functions.invoke`: an invoke error is either a client network
failure or a non-2xx response of the edge function. -/
def invokeProxy (reachable : Bool) (env : ProxyEnv) (req : ProxyRequest) :
    Except String ProxyBody :=
  if reachable then
    let r := serve env req
    if r.status = 200 then .ok r.body
    else .error "Edge Function returned a non-2xx status code"
  else .error "Failed to send a request to the Edge Function"

/-- Field access `searchData?.results || []`. -/
def bodyResults : ProxyBody → List MockRecord
  | .search results _ _ => results
  | _ => []

/-- Field access `responseData?.response || _` (empty string for an absent field). -/
def bodyResponse : ProxyBody → String
  | .generated response => response
  | _ => ""

/-- The hardcoded text used when the generate response carries no text. -/
def processedQueryFallback : String :=
  "Processed your encrypted query. The relevant medical information has been retrieved while maintaining full data privacy."

/-- The fixed apologetic assistant message of the catch branch. -/
def apologeticMessage : String :=
  "I apologize, but I encountered an issue processing your encrypted query. Please try again. Your data remains secure."

/-- The `addMessage` call lifted to the dispatch state (the hook adds to the active
conversation through the chat context). -/
def stateAddMessage (st : DispatchState) (content : String) (role : MsgRole) :
    DispatchState :=
  { st with activeConversation :=
      st.activeConversation.map (fun c => addMessage c content role) }

/-- The audit write `sendMessage` performs when a user is logged in. -/
def stateAddAudit (st : DispatchState) (user : Option UserInfo)
    (action : AuditAction) (dataAccessed : String) : DispatchState :=
  match user with
  | some u =>
    { st with
      auditLogs := addAuditEntry st.auditLogs
        { userId := u.id, userRole := u.role, action := action,
          dataAccessed := dataAccessed } }
  | none => st

/-- The `catch`/`finally` tail of `sendMessage`: set the error, append the
apologetic assistant message, reset the status to idle, clear the loading
flag, decrement the query counter. -/
def dispatchCatch (st : DispatchState) (errMsg : String)
    (trace : List EncStatus) (generateCalled : Bool) : DispatchResult :=
  let st := { st with error := some errMsg }
  let st := stateAddMessage st apologeticMessage .assistant
  let st := { st with
    encryptionStatus := .idle, isLoading := false,
    activeQueries := endQuery st.activeQueries }
  { state := st, statusTrace := trace ++ [.idle],
    generateCalled := generateCalled }

/-- Function `sendMessage(content)` from useMedicalChat.ts. The artificial
`simulateEncryptionDelay` waits perform no state change and are dropped;
the status values they separate are collected in the result trace. -/
def sendMessage (denv : DispatchEnv) (user : Option UserInfo)
    (st : DispatchState) (content : String) : DispatchResult :=
  if jsTrim content = "" ∨ st.activeConversation.isNone then
    { state := st, statusTrace := [], generateCalled := false }
  else
    let st := { st with
      error := none, isLoading := true,
      activeQueries := startQuery st.activeQueries }
    let st := stateAddMessage st content .user
    let st := stateAddAudit st user .query
      ("Encrypted query: \"" ++ jsTake content 50 ++ "...\"")
    -- setEncryptionStatus('encrypting'); …; setEncryptionStatus('searching')
    match invokeProxy denv.searchReachable denv.proxy
        { action := "search", query := content } with
    | .error e => dispatchCatch st e [.encrypting, .searching] false
    | .ok searchBody =>
      let results := bodyResults searchBody
      let st := stateAddAudit st user .retrieval
        ("Searched " ++ toString results.length ++ " encrypted records")
      -- setEncryptionStatus('decrypting')
      match invokeProxy denv.generateReachable denv.proxy
          { action := "generate", query := content, context := results } with
      | .error e =>
        dispatchCatch st e [.encrypting, .searching, .decrypting] true
      | .ok genBody =>
        let aiResponse :=
          if bodyResponse genBody = "" then processedQueryFallback
          else bodyResponse genBody
        -- setEncryptionStatus('complete')
        let st := { st with
          metrics := recordMetric st.metrics
            { recordsSearched :=
                if results.length = 0 then 3 else results.length } }
        let st := stateAddMessage st aiResponse .assistant
        -- setTimeout(() => setEncryptionStatus('idle'), 1500)
        let st := { st with
          encryptionStatus := .idle, isLoading := false,
          activeQueries := endQuery st.activeQueries }
        { state := st,
          statusTrace := [.encrypting, .searching, .decrypting, .complete,
            .idle],
          generateCalled := true }

/-! ## Theorems -/

/-- The scan `List.find?` returns the element at the earliest index satisfying the
predicate when all earlier indices fail it. -/
theorem find?_eq_of_earliest {α : Type} (p : α → Bool) :
    ∀ (l : List α) (i : Nat) (hi : i < l.length),
      p (l.get ⟨i, hi⟩) = true →
      (∀ j (hj : j < i), p (l.get ⟨j, Nat.lt_trans hj hi⟩) = false) →
      l.find? p = some (l.get ⟨i, hi⟩) := by
  intro l
  induction l with
  | nil => intro i hi; exact absurd hi (Nat.not_lt_zero i)
  | cons a t ih =>
    intro i hi hp hmin
    cases i with
    | zero =>
      have hp' : p a = true := by simpa using hp
      simp [List.find?_cons, hp']
    | succ i =>
      have h0 : p a = false := hmin 0 (Nat.succ_pos i)
      have ht := ih i (Nat.lt_of_succ_lt_succ hi) hp
        (fun j hj => hmin (j + 1) (Nat.succ_lt_succ hj))
      simp only [List.find?_cons, h0]
      exact ht

/-- An entry has a positive hit count exactly when some keyword occurs in
the lowercased query. -/
theorem mockHits_pos_iff (q : String) (m : ResponseMatch) :
    0 < mockHits q m ↔
      (m.keywords.any (fun kw => includesStr (jsToLower q) kw)) = true := by
  unfold mockHits
  rw [List.length_pos, Ne, List.filter_eq_nil_iff, List.any_eq_true]
  push_neg
  simp only [Bool.not_eq_true, Bool.not_eq_false]

/-- C4: for every query, the mock response generator returns the response
of the earliest-defined table entry with at least 2 keyword hits; failing
that, the response of the earliest-defined entry with at least 1 hit;
failing that, the fixed default response (so it is total by construction). -/
theorem getMockMedicalResponse_spec (q : String) :
    (∀ i : Fin medicalResponses.length,
      2 ≤ mockHits q (medicalResponses.get i) →
      (∀ j : Fin medicalResponses.length, (j : Nat) < (i : Nat) →
        mockHits q (medicalResponses.get j) < 2) →
      getMockMedicalResponse q = (medicalResponses.get i).response) ∧
    ((∀ m ∈ medicalResponses, mockHits q m < 2) →
      ∀ i : Fin medicalResponses.length,
        1 ≤ mockHits q (medicalResponses.get i) →
        (∀ j : Fin medicalResponses.length, (j : Nat) < (i : Nat) →
          mockHits q (medicalResponses.get j) = 0) →
        getMockMedicalResponse q = (medicalResponses.get i).response) ∧
    ((∀ m ∈ medicalResponses, mockHits q m = 0) →
      getMockMedicalResponse q = defaultResponse) := by
  refine ⟨?_, ?_, ?_⟩
  · intro i hi hmin
    unfold getMockMedicalResponse
    rw [find?_eq_of_earliest _ medicalResponses i.1 i.2
      (by simpa using hi)
      (fun j hj => by
        have := hmin ⟨j, Nat.lt_trans hj i.2⟩ hj
        simpa using Nat.not_le_of_lt this)]
  · intro hall i hi hmin
    unfold getMockMedicalResponse
    have h1 : medicalResponses.find?
        (fun m => decide (2 ≤ mockHits q m)) = none := by
      rw [List.find?_eq_none]
      intro m hm
      simpa using Nat.not_le_of_lt (hall m hm)
    rw [h1]
    rw [find?_eq_of_earliest _ medicalResponses i.1 i.2
      (by
        rw [← mockHits_pos_iff]
        exact hi)
      (fun j hj => by
        have hz := hmin ⟨j, Nat.lt_trans hj i.2⟩ hj
        rw [← Bool.not_eq_true, ← mockHits_pos_iff, hz]
        omega)]
  · intro hall
    unfold getMockMedicalResponse
    have h1 : medicalResponses.find?
        (fun m => decide (2 ≤ mockHits q m)) = none := by
      rw [List.find?_eq_none]
      intro m hm
      have := hall m hm
      simp [this]
    have h2 : medicalResponses.find?
        (fun m => m.keywords.any (fun kw => includesStr (jsToLower q) kw))
          = none := by
      rw [List.find?_eq_none]
      intro m hm
      rw [← mockHits_pos_iff, hall m hm]
      omega
    rw [h1, h2]

/-- Witness for C4 at the query "type 2 diabetes treatment in elderly":
entry 0 scores 4 hits, so its response is returned. -/
theorem getMockMedicalResponse_spec_witness :
    getMockMedicalResponse "type 2 diabetes treatment in elderly" =
      (medicalResponses.get ⟨0, by decide⟩).response :=
  (getMockMedicalResponse_spec "type 2 diabetes treatment in elderly").1
    ⟨0, by decide⟩ (by decide) (fun j hj => absurd hj (Nat.not_lt_zero j))

/-- C5: after any sequence of recorded metrics starting from the empty
list, the metrics list is exactly the most recent (at most 20) metrics in
insertion order — the last `min 20 n` elements of the recording sequence —
and in particular never exceeds 20 entries. -/
theorem recordMetric_keeps_last_twenty {α : Type} (ms : List α) :
    ms.foldl recordMetric [] = ms.drop (ms.length - 20) ∧
    (ms.foldl recordMetric ([] : List α)).length ≤ 20 := by
  have main : ms.foldl recordMetric [] = ms.drop (ms.length - 20) := by
    induction ms using List.reverseRecOn with
    | nil => rfl
    | append_singleton l a ih =>
      rw [List.foldl_append, List.foldl_cons, List.foldl_nil, ih]
      unfold recordMetric
      rw [List.length_drop, List.drop_drop, List.length_append,
        List.drop_append_of_le_length (by simp)]
      simp only [List.length_singleton]
      congr 2
      omega
  refine ⟨main, ?_⟩
  rw [main, List.length_drop]
  omega

/-- Generalisation of the audit-log fold to a truncated accumulator. -/
theorem foldl_addAuditEntry {α : Type} (es : List α) :
    ∀ acc : List α, acc.length ≤ 100 →
      es.foldl addAuditEntry acc = (es.reverse ++ acc).take 100 := by
  induction es with
  | nil =>
    intro acc h
    simp [List.take_of_length_le h]
  | cons e es ih =>
    intro acc h
    rw [List.foldl_cons, ih (addAuditEntry acc e)
      (by simp [addAuditEntry, List.length_take])]
    unfold addAuditEntry
    rw [List.take_append_eq_append_take, List.take_take,
      List.reverse_cons, List.append_assoc, List.take_append_eq_append_take]
    congr 1
    rw [List.singleton_append]
    congr 1
    omega

/-- C6: after any sequence of audit insertions starting from the empty
list, the log holds the most recent (at most 100) entries newest-first,
never exceeds 100 entries, and each insertion puts the new entry at the
head. -/
theorem addAuditEntry_keeps_last_hundred {α : Type} (es : List α) :
    es.foldl addAuditEntry [] = es.reverse.take 100 ∧
    (es.foldl addAuditEntry ([] : List α)).length ≤ 100 ∧
    ∀ (prev : List α) (e : α), (addAuditEntry prev e).head? = some e := by
  have main : es.foldl addAuditEntry [] = es.reverse.take 100 := by
    rw [foldl_addAuditEntry es [] (by simp)]
    simp
  refine ⟨main, ?_, fun prev e => rfl⟩
  rw [main, List.length_take]
  omega

/-- The counter fold stays nonnegative from any nonnegative start. -/
theorem foldl_applyQueryOp_nonneg (ops : List QueryOp) :
    ∀ n : Int, 0 ≤ n → 0 ≤ ops.foldl applyQueryOp n := by
  induction ops with
  | nil => intro n h; simpa
  | cons op ops ih =>
    intro n h
    rw [List.foldl_cons]
    apply ih
    cases op
    · show 0 ≤ startQuery n
      unfold startQuery
      omega
    · show 0 ≤ endQuery n
      exact le_max_left 0 (n - 1)

/-- C10: `startQuery` increments the counter by one, `endQuery` decrements
it but clamps at 0, and consequently after any interleaving of the two
operations starting from 0 — including more end than start events — the
active-query counter is never negative. -/
theorem activeQueries_never_negative :
    (∀ n : Int, startQuery n = n + 1) ∧
    (∀ n : Int, endQuery n = max 0 (n - 1)) ∧
    ∀ ops : List QueryOp, 0 ≤ ops.foldl applyQueryOp 0 :=
  ⟨fun _ => rfl, fun _ => rfl,
    fun ops => foldl_applyQueryOp_nonneg ops 0 le_rfl⟩

/-- Adding a message always leaves the conversation nonempty. -/
theorem addMessage_messages_ne_nil (conv : Conversation) (c : String)
    (r : MsgRole) : (addMessage conv c r).messages ≠ [] := by
  simp [addMessage]

/-- Once a conversation has a message, any further sequence of added
messages leaves the title unchanged (and the conversation nonempty). -/
theorem addMessage_title_stable (rest : List (String × MsgRole)) :
    ∀ conv : Conversation, conv.messages ≠ [] →
      (rest.foldl (fun cv p => addMessage cv p.1 p.2) conv).title =
          conv.title ∧
      (rest.foldl (fun cv p => addMessage cv p.1 p.2) conv).messages ≠
          [] := by
  induction rest with
  | nil => intro conv h; exact ⟨rfl, h⟩
  | cons p rest ih =>
    intro conv h
    rw [List.foldl_cons]
    have h1 : (addMessage conv p.1 p.2).title = conv.title := by
      unfold addMessage
      rw [if_neg]
      rintro ⟨h0, -⟩
      exact h (List.length_eq_zero.mp h0)
    obtain ⟨ht, hm⟩ :=
      ih (addMessage conv p.1 p.2) (addMessage_messages_ne_nil conv p.1 p.2)
    exact ⟨ht.trans h1, hm⟩

/-- C7: when the first message added to an empty conversation is a user
message of text `t`, the title becomes the first 40 characters of `t` with
an ellipsis appended exactly when `t` is longer than 40 characters, and
every later `addMessage` call leaves the title unchanged. -/
theorem addMessage_sets_title_once (conv : Conversation) (t : String)
    (h : conv.messages = []) :
    (addMessage conv t .user).title =
      jsTake t 40 ++ (if 40 < jsLength t then "..." else "") ∧
    ∀ rest : List (String × MsgRole),
      (rest.foldl (fun cv p => addMessage cv p.1 p.2)
          (addMessage conv t .user)).title =
        (addMessage conv t .user).title := by
  constructor
  · unfold addMessage
    rw [if_pos ⟨by simp [h], rfl⟩]
  · intro rest
    exact (addMessage_title_stable rest (addMessage conv t .user)
      (addMessage_messages_ne_nil conv t .user)).1

/-- The long demo question used as a concrete first message. -/
def longQuestion : String :=
  "What are the common symptoms of Type 2 Diabetes in elderly patients?"

/-- Witness for C7: a fresh conversation titled by a 68-character first user
message gets the 40-character truncation plus ellipsis, and a follow-up
assistant message does not change it. -/
theorem addMessage_sets_title_once_witness :
    (addMessage { title := "New Conversation", messages := [] }
        longQuestion .user).title =
      "What are the common symptoms of Type 2 D..." ∧
    ([("reply", MsgRole.assistant)].foldl
        (fun cv p => addMessage cv p.1 p.2)
        (addMessage { title := "New Conversation", messages := [] }
          longQuestion .user)).title =
      "What are the common symptoms of Type 2 D..." := by
  have h := addMessage_sets_title_once
    { title := "New Conversation", messages := [] } longQuestion rfl
  refine ⟨h.1.trans (by decide), ?_⟩
  rw [h.2 [("reply", MsgRole.assistant)]]
  exact h.1.trans (by decide)

/-! Concrete fixtures used by witnesses and counterexamples. -/

/-- Proxy environment with no configured secrets and unreachable external
services: both fallback branches fire. -/
def offlineProxyEnv : ProxyEnv :=
  { cyborgKey := none,
    lovableKey := none,
    searchFetch := .networkError,
    aiFetch := .networkError,
    upsertOk := false }

/-- Dispatch environment over `offlineProxyEnv` with the edge function
itself reachable. -/
def offlineDispatchEnv : DispatchEnv :=
  { proxy := offlineProxyEnv, searchReachable := true,
    generateReachable := true }

/-- Dispatch environment where the search invoke cannot reach the edge
function. -/
def searchUnreachableEnv : DispatchEnv :=
  { proxy := offlineProxyEnv, searchReachable := false,
    generateReachable := true }

/-- A freshly created conversation. -/
def newConversation : Conversation :=
  { title := "New Conversation", messages := [] }

/-- Client state right after creating a conversation. -/
def freshState : DispatchState :=
  { activeConversation := some newConversation,
    isLoading := false,
    encryptionStatus := .idle,
    error := none,
    auditLogs := [],
    metrics := [],
    activeQueries := 0 }

/-- The query of the offline scenario. -/
def diabetesQuery : String := "What are common symptoms of Type 2 Diabetes?"

/-- C9: with an empty (or all-whitespace) query or no active conversation,
`sendMessage` is a no-op: the state is returned unchanged — no message,
audit entry or metric is added and the loading flag, encryption status and
counter keep their values — and no call is dispatched. -/
theorem sendMessage_noop_on_invalid_input (denv : DispatchEnv)
    (user : Option UserInfo) (st : DispatchState) (content : String)
    (h : jsTrim content = "" ∨ st.activeConversation = none) :
    sendMessage denv user st content =
      { state := st, statusTrace := [], generateCalled := false } := by
  unfold sendMessage
  rw [if_pos]
  rcases h with h | h
  · exact Or.inl h
  · exact Or.inr (by simp [h])

/-- Witness for C9: a whitespace-only query against a fresh state leaves
the state untouched. -/
theorem sendMessage_noop_on_invalid_input_witness :
    sendMessage offlineDispatchEnv (some { id := "usr-001", role := "doctor" })
        freshState "   " =
      { state := freshState, statusTrace := [], generateCalled := false } :=
  sendMessage_noop_on_invalid_input offlineDispatchEnv
    (some { id := "usr-001", role := "doctor" }) freshState "   "
    (Or.inl (by decide))

/-- C3 (amended): for every `search` request carrying a non-empty query,
an unconfigured search-service key makes the proxy reply 200 with the
keyword-matched mock records and source "demo" — never an error status.
(The action also defaults to `search` when absent.) -/
theorem serve_search_no_key_demo_fallback (env : ProxyEnv)
    (req : ProxyRequest) (ha : req.action = "search" ∨ req.action = "")
    (hq : req.query ≠ "") (hk : env.cyborgKey = none) :
    serve env req =
      { status := 200,
        body := .search
          (getMockResults req.query
            (if req.role = "" then "doctor" else req.role))
          "demo" (some demoMessage) } := by
  rcases ha with h | h <;>
    cases hsf : env.searchFetch <;>
      simp [serve, h, hq, hk, hsf]

/-- Witness for C3: a keyless search for the diabetes question returns the
demo-mode doctor diagnosis records. -/
theorem serve_search_no_key_demo_fallback_witness :
    serve offlineProxyEnv { action := "search", query := diabetesQuery } =
      { status := 200,
        body := .search [⟨"dx-001"⟩, ⟨"dx-002"⟩] "demo"
          (some demoMessage) } := by
  rw [serve_search_no_key_demo_fallback offlineProxyEnv
    { action := "search", query := diabetesQuery }
    (Or.inl rfl) (by decide) rfl]
  decide

/-- C3 counterexample: the claim quantifies over every `search` request,
but a search request with an empty query makes the handler throw
("Query is required"), which the outer catch surfaces as HTTP 500 — an
error status even though no search key is configured. -/
theorem serve_search_empty_query_error :
    serve offlineProxyEnv { action := "search", query := "" } =
      { status := 500, body := .jsonError "Query is required" } := by
  decide

/-- C8: when a gateway key is configured and the LLM gateway answers a
`generate` request with HTTP 429 (resp. 402), the proxy replies with the
same status and a fixed message that does not depend on the query, the
context or any other request field. -/
theorem serve_generate_gateway_status_passthrough (env : ProxyEnv)
    (req : ProxyRequest) (k : String) (ha : req.action = "generate")
    (hk : env.lovableKey = some k) :
    (env.aiFetch = .httpError 429 →
      serve env req =
        { status := 429,
          body := .jsonError
            "Rate limit exceeded. Please try again in a moment." }) ∧
    (env.aiFetch = .httpError 402 →
      serve env req =
        { status := 402,
          body := .jsonError
            "AI credits exhausted. Please add credits to continue." }) := by
  constructor <;> intro haf <;> simp [serve, ha, hk, haf]

/-- Witness for C8: a concrete generate request under a rate-limited and a
credit-exhausted gateway. -/
theorem serve_generate_gateway_status_passthrough_witness :
    serve { offlineProxyEnv with
          lovableKey := some "k",
          aiFetch := .httpError 429 }
      { action := "generate", query := diabetesQuery } =
      { status := 429,
        body := .jsonError
          "Rate limit exceeded. Please try again in a moment." } ∧
    serve { offlineProxyEnv with
          lovableKey := some "k",
          aiFetch := .httpError 402 }
      { action := "generate", query := diabetesQuery } =
      { status := 402,
        body := .jsonError
          "AI credits exhausted. Please add credits to continue." } :=
  ⟨(serve_generate_gateway_status_passthrough _ _ "k" rfl rfl).1 rfl,
   (serve_generate_gateway_status_passthrough _ _ "k" rfl rfl).2 rfl⟩

/-- C1 counterexample: the claim says a failed search is absorbed (dispatch
proceeds to generate, no error-path assistant message). On the code, a
search invoke error is thrown: for this concrete query the generate step is
never called and the catch branch appends the apologetic message. -/
theorem sendMessage_search_error_counterexample :
    (sendMessage searchUnreachableEnv
        (some { id := "usr-001", role := "doctor" }) freshState
        diabetesQuery).generateCalled = false ∧
    (sendMessage searchUnreachableEnv
        (some { id := "usr-001", role := "doctor" }) freshState
        diabetesQuery).state.activeConversation =
      some (addMessage (addMessage newConversation diabetesQuery .user)
        apologeticMessage .assistant) := by
  constructor <;> decide

/-- C1 (amended): when the search invoke returns an error, `sendMessage`
logs it and throws: the generate step is not reached, the catch branch
appends the fixed apologetic assistant message after the user message, and
the status machine resets to idle without passing `complete`. -/
theorem sendMessage_search_error_aborts_dispatch (denv : DispatchEnv)
    (user : Option UserInfo) (st : DispatchState) (conv : Conversation)
    (content : String) (hc : jsTrim content ≠ "")
    (ha : st.activeConversation = some conv)
    (hs : denv.searchReachable = false) :
    (sendMessage denv user st content).generateCalled = false ∧
    (sendMessage denv user st content).statusTrace =
      [.encrypting, .searching, .idle] ∧
    (sendMessage denv user st content).state.encryptionStatus = .idle ∧
    (sendMessage denv user st content).state.activeConversation =
      some (addMessage (addMessage conv content .user)
        apologeticMessage .assistant) := by
  have hcond : ¬(jsTrim content = "" ∨ st.activeConversation.isNone = true) := by
    rw [ha]
    simp [hc]
  refine ⟨?_, ?_, ?_, ?_⟩ <;>
    cases user <;>
      simp [sendMessage, hcond, hc, hs, invokeProxy, dispatchCatch,
        stateAddMessage, stateAddAudit, ha]

/-- Witness for C1 at the concrete offline scenario with an unreachable
edge function. -/
theorem sendMessage_search_error_aborts_dispatch_witness :
    jsTrim diabetesQuery ≠ "" ∧
    (sendMessage searchUnreachableEnv
        (some { id := "usr-002", role := "clinician" }) freshState
        diabetesQuery).statusTrace =
      [EncStatus.encrypting, EncStatus.searching, EncStatus.idle] :=
  ⟨by decide,
   (sendMessage_search_error_aborts_dispatch searchUnreachableEnv
      (some { id := "usr-002", role := "clinician" }) freshState
      newConversation diabetesQuery (by decide) rfl rfl).2.1⟩

/-- Dispatch environment of the offline scenario: no secrets configured,
edge function reachable, external services in any state. -/
def offlineEnv (sf : SearchFetch) (af : AiFetch) (uo : Bool) : DispatchEnv :=
  { proxy := { cyborgKey := none,
               lovableKey := none,
               searchFetch := sf,
               aiFetch := af,
               upsertOk := uo },
    searchReachable := true, generateReachable := true }

/-- C2 counterexample: the claim promises the fallback template "for the
requesting user's role". With a researcher logged in, the dispatch still
yields the doctor diabetes template — the hook never transmits the role and
the proxy defaults it to "doctor" — which differs from the template the
selection yields for role "researcher". -/
theorem diabetes_scenario_role_counterexample :
    (sendMessage offlineDispatchEnv
        (some { id := "usr-004", role := "researcher" }) freshState
        diabetesQuery).state.activeConversation =
      some (addMessage (addMessage newConversation diabetesQuery .user)
        tplDoctorDiabetes .assistant) ∧
    tplDoctorDiabetes ≠
      generateFallbackResponse diabetesQuery
        (getMockResults diabetesQuery "doctor") "researcher" := by
  constructor <;> decide

/-- C2 (amended): for the query "What are common symptoms of Type 2
Diabetes?" with no search or gateway key configured (the proxy takes both
fallback branches), the dispatch — for any logged-in user and any external
service state — ends with encryption status idle after passing `complete`,
adds exactly two messages (the user message then one assistant message) to
the active conversation, and the assistant text is the fallback template
selected for "diabetes" under role "doctor", the proxy default, since the
dispatch does not transmit the user's role. -/
theorem diabetes_offline_scenario_doctor_template (sf : SearchFetch)
    (af : AiFetch) (uo : Bool) (user : Option UserInfo)
    (st : DispatchState) (conv : Conversation)
    (ha : st.activeConversation = some conv) :
    (sendMessage (offlineEnv sf af uo) user st
        diabetesQuery).state.encryptionStatus = .idle ∧
    (sendMessage (offlineEnv sf af uo) user st diabetesQuery).statusTrace =
      [.encrypting, .searching, .decrypting, .complete, .idle] ∧
    (sendMessage (offlineEnv sf af uo) user st
        diabetesQuery).state.activeConversation =
      some (addMessage (addMessage conv diabetesQuery .user)
        tplDoctorDiabetes .assistant) ∧
    tplDoctorDiabetes =
      generateFallbackResponse diabetesQuery
        (getMockResults diabetesQuery "doctor") "doctor" := by
  have hq : ¬(jsTrim diabetesQuery = "") := by decide
  have hcond : ¬(jsTrim diabetesQuery = "" ∨
      st.activeConversation.isNone = true) := by
    rw [ha]
    simp [hq]
  have hsearch : invokeProxy (offlineEnv sf af uo).searchReachable
      (offlineEnv sf af uo).proxy
      { action := "search", query := diabetesQuery } =
      .ok (.search [⟨"dx-001"⟩, ⟨"dx-002"⟩] "demo" (some demoMessage)) := by
    cases sf <;> rfl
  have hgen : invokeProxy (offlineEnv sf af uo).generateReachable
      (offlineEnv sf af uo).proxy
      { action := "generate", query := diabetesQuery,
        context := [⟨"dx-001"⟩, ⟨"dx-002"⟩] } =
      .ok (.generated tplDoctorDiabetes) := by
    cases af <;> rfl
  refine ⟨?_, ?_, ?_, by decide⟩ <;>
    cases user <;>
      simp [sendMessage, hq, hcond, hsearch, hgen, ha, bodyResults,
        bodyResponse, stateAddMessage, stateAddAudit, tplDoctorDiabetes]

/-- Witness for C2 with a doctor logged in, both services unreachable. -/
theorem diabetes_offline_scenario_doctor_template_witness :
    freshState.activeConversation = some newConversation ∧
    (sendMessage (offlineEnv .networkError .networkError false)
        (some { id := "usr-001", role := "doctor" }) freshState
        diabetesQuery).state.activeConversation =
      some (addMessage (addMessage newConversation diabetesQuery .user)
        tplDoctorDiabetes .assistant) :=
  ⟨rfl,
   (diabetes_offline_scenario_doctor_template .networkError .networkError
      false (some { id := "usr-001", role := "doctor" }) freshState
      newConversation rfl).2.2.1⟩
